import Mathlib

/-!
Shallow embedding of the lhcontrol device-session and orchestration layer.

The Go package `internal/bluetooth` drives per-device BLE sessions
(connect, service/characteristic discovery with retries, one-byte power
reads and writes, disconnect), and `internal/station` orchestrates many
sessions (scan-and-merge, power-on/off-all with error aggregation).

Modelling choices:
  * machine state is passed explicitly: a `BTWorld` holds one station's
    fields together with the session registry, a logical clock (each
    `time.Now()` read returns the clock and advances it), a trace of
    `time.Sleep` durations, and per-transport-call counters;
  * the radio transport is an oracle `Env`: each kind of transport call
    (connect, service discovery, characteristic discovery, read, write)
    draws its outcome from a stream indexed by how many calls of that
    kind have happened so far;
  * fallible Go functions returning `error` become functions returning
    `Except String α`, with the `fmt.Errorf` message texts preserved;
  * handles (`*bluetooth.Device`, `*bluetooth.DeviceCharacteristic`)
    become `Option Unit`: only presence/absence is observable here.
-/

/-- PowerState constant: unknown (source: `PowerStateUnknown = -1`). -/
def PowerStateUnknown : Int := -1

/-- PowerState constant: off (source: `PowerStateOff = 0`). -/
def PowerStateOff : Int := 0

/-- PowerState constant: on (source: `PowerStateOn = 1`). -/
def PowerStateOn : Int := 1

/-- The mutable fields of a `BaseStation` (source struct `BaseStation`).
The Go mutex is not modelled: operations are serialized per station. -/
structure BaseStation where
  Name : String
  Address : String
  PowerState : Int
  device : Option Unit
  characteristic : Option Unit
  isConnected : Bool
  LastStateUpdate : Nat
  deriving Repr, DecidableEq

/-- World state threaded through the session operations: the station, the
global `connectedStations` registry (as the list of registered addresses),
a logical clock for `time.Now()`, the trace of `time.Sleep` durations (in
milliseconds), and counters of transport calls made so far. -/
structure BTWorld where
  station : BaseStation
  registry : List String
  clock : Nat
  sleeps : List Nat
  nConnect : Nat
  nServices : Nat
  nChars : Nat
  nRead : Nat
  nWrite : Nat
  deriving Repr, DecidableEq

/-- Transport oracle: outcome of the n-th call of each kind.
`reads n` yields `(count, byteValue)` as `characteristic.Read` fills a
1-byte buffer and returns the byte count; `writes n` yields the byte
count returned by `WriteWithoutResponse`. -/
structure Env where
  connects : Nat → Except String Unit
  services : Nat → Except String Nat
  chars : Nat → Except String Nat
  reads : Nat → Except String (Nat × Nat)
  writes : Nat → Except String Nat

/-- `time.Sleep(d)`: recorded in the sleep trace. -/
def sleep (w : BTWorld) (d : Nat) : BTWorld :=
  { w with sleeps := w.sleeps ++ [d] }

/-- `bs.IsConnected()`: `isConnected && device != nil`. -/
def BaseStation.IsConnected (bs : BaseStation) : Bool :=
  bs.isConnected && bs.device.isSome

/-- `setPowerStateInternal`: sets `PowerState` and stamps
`LastStateUpdate = time.Now()` (the clock advances on each read). -/
def setPowerStateInternal (w : BTWorld) (state : Int) : BTWorld :=
  { w with
    station := { w.station with PowerState := state, LastStateUpdate := w.clock }
    clock := w.clock + 1 }

/-- `readPowerStateInternal`: reads one byte from the power
characteristic; transport error or a byte count other than 1 sets
`PowerState = Unknown` and fails; otherwise byte 0 maps to Off and any
non-zero byte to On. -/
def readPowerStateInternal (env : Env) (w : BTWorld) : Except String Unit × BTWorld :=
  if w.station.characteristic = none then
    (.error ("power characteristic is nil for " ++ w.station.Name), w)
  else
    let r := env.reads w.nRead
    let w := { w with nRead := w.nRead + 1 }
    match r with
    | .error e =>
        (.error ("failed to read power characteristic for " ++ w.station.Name ++ ": " ++ e),
         setPowerStateInternal w PowerStateUnknown)
    | .ok (n, b) =>
        if n ≠ 1 then
          (.error ("unexpected bytes read (" ++ toString n ++ ") for power on " ++ w.station.Name),
           setPowerStateInternal w PowerStateUnknown)
        else
          let newState : Int := if (b : Int) ≠ PowerStateOff then PowerStateOn else (b : Int)
          (.ok (), setPowerStateInternal w newState)

/-- `ReadPowerState`: public read on an already connected station; `nil`
station pointer is rejected up front. -/
def ReadPowerState (env : Env) (st : Option BTWorld) : Except String Unit × Option BTWorld :=
  match st with
  | none => (.error "station is nil", none)
  | some w =>
      if ¬ w.station.isConnected ∨ w.station.device = none then
        (.error ("station " ++ w.station.Name ++ " is not connected"), some w)
      else if w.station.characteristic = none then
        (.error ("power characteristic not cached for " ++ w.station.Name), some w)
      else
        let (r, w) := readPowerStateInternal env w
        (r, some w)

/-- `disconnectInternal`: best-effort radio disconnect (errors ignored),
clears handles and `isConnected`, sets `PowerState = Unknown` (stamping
`LastStateUpdate`), and removes the station's address from the registry. -/
def disconnectInternal (w : BTWorld) : BTWorld :=
  let w := { w with
    station := { w.station with isConnected := false, device := none, characteristic := none } }
  let w := setPowerStateInternal w PowerStateUnknown
  { w with registry := w.registry.filter (fun a => a ≠ w.station.Address) }

/-- `DisconnectStation`: public disconnect; `nil` pointer is a pure no-op.
The Go function returns nothing, so there is no error channel at all. -/
def DisconnectStation (st : Option BTWorld) : Option BTWorld :=
  match st with
  | none => none
  | some w => some (disconnectInternal w)

/-- Registry insertion on successful connect: append the address unless
already present (source: linear scan of `connectedStations`). -/
def registryAdd (w : BTWorld) : BTWorld :=
  if w.registry.contains w.station.Address then w
  else { w with registry := w.registry ++ [w.station.Address] }

/-- The connect phase of `connectAndDiscoverInternal`: if not connected,
attempt `adapter.Connect`; on failure clear everything and set Unknown;
on success store the handle, set `isConnected`, register the station. -/
def connectPhase (env : Env) (w : BTWorld) : Except String Unit × BTWorld :=
  if ¬ w.station.isConnected ∨ w.station.device = none then
    let r := env.connects w.nConnect
    let w := { w with nConnect := w.nConnect + 1 }
    match r with
    | .error e =>
        let w := { w with
          station := { w.station with isConnected := false, device := none, characteristic := none } }
        (.error ("connection failed internal: " ++ e), setPowerStateInternal w PowerStateUnknown)
    | .ok _ =>
        let w := { w with station := { w.station with device := some (), isConnected := true } }
        (.ok (), registryAdd w)
  else (.ok (), w)

/-- One discovery attempt: `DiscoverServices` (error or empty list fails
the attempt), then `DiscoverCharacteristics` on the first service (error
or empty list fails the attempt). The characteristic-discovery stream is
only consumed when service discovery returned a non-empty list, exactly
as the source only calls `DiscoverCharacteristics` then. -/
def discoveryAttempt (env : Env) (w : BTWorld) : Except String Unit × BTWorld :=
  let rs := env.services w.nServices
  let w := { w with nServices := w.nServices + 1 }
  match rs with
  | .error e => (.error e, w)
  | .ok svcCount =>
      if svcCount = 0 then (.error "no services found", w)
      else
        let rc := env.chars w.nChars
        let w := { w with nChars := w.nChars + 1 }
        match rc with
        | .error e => (.error e, w)
        | .ok chCount =>
            if chCount = 0 then (.error "no characteristics found", w)
            else (.ok (), w)

/-- The retry loop of `connectAndDiscoverInternal`: up to `remaining`
further attempts, sleeping 500 ms before every attempt but the first
(`i` is the source's loop index); on exhaustion the last attempt's error
is reported. -/
def discoveryLoop (env : Env) : Nat → Nat → String → BTWorld → Except String Unit × BTWorld
  | _, 0, lastErr, w => (.error lastErr, w)
  | i, Nat.succ remaining, _, w =>
      let w := if i > 0 then sleep w 500 else w
      match discoveryAttempt env w with
      | (.ok _, w) => (.ok (), w)
      | (.error e, w) => discoveryLoop env (i + 1) remaining e w

/-- `connectAndDiscoverInternal`: no-op when connected with both handles;
otherwise connect if needed, then, if the characteristic is missing, run
the discovery loop (3 attempts); total discovery failure disconnects the
session and reports a discovery error; success caches `chars[0]`. -/
def connectAndDiscoverInternal (env : Env) (w : BTWorld) : Except String Unit × BTWorld :=
  if w.station.isConnected ∧ w.station.device.isSome ∧ w.station.characteristic.isSome then
    (.ok (), w)
  else
    match connectPhase env w with
    | (.error e, w) => (.error e, w)
    | (.ok _, w) =>
        if w.station.characteristic = none then
          match discoveryLoop env 0 3 "" w with
          | (.error e, w) =>
              let w := disconnectInternal w
              (.error ("discovery failed internal for " ++ w.station.Name ++
                " after 3 retries: " ++ e), w)
          | (.ok _, w) =>
              (.ok (), { w with station := { w.station with characteristic := some () } })
        else (.ok (), w)

/-- `FetchInitialPowerState`: connect-and-discover, then read, under one
lock acquisition; `nil` pointer rejected up front. -/
def FetchInitialPowerState (env : Env) (st : Option BTWorld) : Except String Unit × Option BTWorld :=
  match st with
  | none => (.error "station is nil", none)
  | some w =>
      match connectAndDiscoverInternal env w with
      | (.error e, w) => (.error e, some w)
      | (.ok _, w) =>
          let (r, w) := readPowerStateInternal env w
          (r, some w)

/-- One byte written over the transport: the write stream is consumed and
the byte value recorded only through the returned count in the oracle;
the call outcome is `env.writes` at the current write counter. -/
def writeByte (env : Env) (w : BTWorld) : Except String Nat × BTWorld :=
  (env.writes w.nWrite, { w with nWrite := w.nWrite + 1 })

/-- The retry loop shared by `PowerOn` and `PowerOff` (`maxRetries = 2`):
each attempt connects-and-discovers (final-attempt failure aborts with a
connect/discover error), then writes the command byte without response;
a write error force-disconnects and, when attempts remain, sleeps 500 ms
and retries; a successful write exits the loop. `cadMsg`/`writeMsg` are
the respective `fmt.Errorf` prefixes of the calling operation. -/
def setPowerAttempt (env : Env) (cadMsg writeMsg : String) :
    Nat → BTWorld → Except String Unit × BTWorld
  | 0, w => (.error "", w)
  | Nat.succ remaining, w =>
      match connectAndDiscoverInternal env w with
      | (.error e, w) =>
          if remaining = 0 then (.error (cadMsg ++ e), w)
          else
            let w := disconnectInternal w
            let w := sleep w 500
            setPowerAttempt env cadMsg writeMsg remaining w
      | (.ok _, w) =>
          match writeByte env w with
          | (.ok _n, w) => (.ok (), w)
          | (.error e, w) =>
              let w := disconnectInternal w
              if remaining = 0 then (.error (writeMsg ++ e), w)
              else
                let w := sleep w 500
                setPowerAttempt env cadMsg writeMsg remaining w

/-- `PowerOn`: `nil` rejected; otherwise the 2-attempt write loop for
byte `0x01`; after a successful write, sleep 100 ms and issue a
best-effort reconciliation read whose failure is only logged. -/
def PowerOn (env : Env) (st : Option BTWorld) : Except String Unit × Option BTWorld :=
  match st with
  | none => (.error "station is nil", none)
  | some w =>
      match setPowerAttempt env "failed to connect/discover before PowerOn: "
          "failed to write Power ON command after 2 retries: " 2 w with
      | (.error e, w) => (.error e, some w)
      | (.ok _, w) =>
          let w := sleep w 100
          let (_r, w) := readPowerStateInternal env w
          (.ok (), some w)

/-- `PowerOff`: as `PowerOn` but writing byte `0x00`. -/
def PowerOff (env : Env) (st : Option BTWorld) : Except String Unit × Option BTWorld :=
  match st with
  | none => (.error "station is nil", none)
  | some w =>
      match setPowerAttempt env "failed to connect/discover before PowerOff: "
          "failed to write Power OFF command after 2 retries: " 2 w with
      | (.error e, w) => (.error e, some w)
      | (.ok _, w) =>
          let w := sleep w 100
          let (_r, w) := readPowerStateInternal env w
          (.ok (), some w)

/-- One advertisement delivered to the scan callback. -/
structure ScanResultEntry where
  localName : String
  address : String
  deriving Repr, DecidableEq

/-- A `BaseStation` value as built by the scan callback. -/
structure ScannedStation where
  Name : String
  Address : String
  PowerState : Int
  deriving Repr, DecidableEq

/-- Map insertion used by the scan callback: `localStations[addr] = v`
(replace on duplicate key, append otherwise). -/
def scanInsert (m : List (String × ScannedStation)) (key : String) (v : ScannedStation) :
    List (String × ScannedStation) :=
  if m.any (fun p => p.1 = key) then
    m.map (fun p => if p.1 = key then (key, v) else p)
  else m ++ [(key, v)]

/-- `strings.HasPrefix(name, "LHB-")`, computed over the character
lists so it evaluates by `decide`. -/
def isVendorStationName (s : String) : Bool :=
  "LHB-".data.isPrefixOf s.data

/-- The scan callback folded over the advertisement stream: drop empty
names and names not starting with "LHB-", drop empty and null addresses,
deduplicate by address string with last-seen-wins. -/
def scanAccumulate (ads : List ScanResultEntry) : List (String × ScannedStation) :=
  ads.foldl
    (fun m r =>
      if r.localName = "" ∨ ¬ (isVendorStationName r.localName) then m
      else if r.address = "" ∨ r.address = "00:00:00:00:00:00" then m
      else scanInsert m r.address ⟨r.localName, r.address, PowerStateUnknown⟩)
    []

/-- `ScanForDuration`: the blocking scan accumulates stations from the
advertisement stream; `scanErr` is the error `adapter.Scan` terminated
with, if any. Zero results together with a scan error fail the call;
otherwise the accumulated stations are returned. -/
def ScanForDuration (ads : List ScanResultEntry) (scanErr : Option String) :
    Except String (List ScannedStation) :=
  let results := (scanAccumulate ads).map (fun p => p.2)
  if results.length = 0 ∧ scanErr.isSome then
    .error ("scan failed with no results: " ++ scanErr.getD "")
  else .ok results

/-- `StationInfo`: the frontend-facing snapshot entry. -/
structure StationInfo where
  name : String
  originalName : String
  address : String
  powerState : Int
  deriving Repr, DecidableEq

/-- The `station.Manager` state: the address-keyed map of station
pointers (a `none` value is a nil pointer in the map), the rename table
from the config collaborator, and the scan mutual-exclusion flag. -/
structure Manager where
  stations : List (String × Option BTWorld)
  renamedStations : List (String × String)
  isScanning : Bool
  deriving Repr, DecidableEq

/-- Lookup in `config.RenamedStations`. -/
def lookupRename (rn : List (String × String)) (name : String) : Option String :=
  (rn.find? (fun p => p.1 = name)).map (fun p => p.2)

/-- `Manager.GetStationInfo`: snapshot of the non-nil stations, applying
the rename table to the displayed name. -/
def GetStationInfo (m : Manager) : List StationInfo :=
  m.stations.filterMap (fun p =>
    p.2.map (fun w =>
      { name := (lookupRename m.renamedStations w.station.Name).getD w.station.Name
        originalName := w.station.Name
        address := w.station.Address
        powerState := w.station.PowerState }))

/-- `Manager.IsScanning`. -/
def Manager.IsScanning (m : Manager) : Bool := m.isScanning

/-- Map lookup in the manager's station map, treating a nil pointer
entry as absent for dereference purposes. -/
def lookupStation (m : Manager) (addr : String) : Option BTWorld :=
  ((m.stations.find? (fun p => p.1 = addr)).bind (fun p => p.2))

/-- Map update/insert in the manager's station map. -/
def setStation (m : Manager) (addr : String) (w : BTWorld) : Manager :=
  if m.stations.any (fun p => p.1 = addr) then
    { m with stations := m.stations.map (fun p => if p.1 = addr then (addr, some w) else p) }
  else { m with stations := m.stations ++ [(addr, some w)] }

/-- A fresh `BaseStation` pointer as created by the merge for a newly
discovered address: the scanned fields, zero values elsewhere. -/
def newStationWorld (s : ScannedStation) : BTWorld :=
  { station :=
      { Name := s.Name, Address := s.Address, PowerState := s.PowerState
        device := none, characteristic := none, isConnected := false, LastStateUpdate := 0 }
    registry := [], clock := 0, sleeps := []
    nConnect := 0, nServices := 0, nChars := 0, nRead := 0, nWrite := 0 }

/-- The merge loop of `ScanAndFetchStations`: for each discovered
station, update the name of a known entry in place and schedule it for a
fetch only when not currently connected; create and always schedule a
new entry otherwise. Returns the updated map and the addresses scheduled
for `FetchInitialPowerState`, in order. -/
def mergeScan (m : Manager) (found : List ScannedStation) : Manager × List String :=
  found.foldl
    (fun acc st =>
      let m := acc.1
      let toFetch := acc.2
      match lookupStation m st.Address with
      | some w =>
          let w := { w with station := { w.station with Name := st.Name } }
          let m := setStation m st.Address w
          if w.station.IsConnected then (m, toFetch) else (m, toFetch ++ [st.Address])
      | none =>
          (setStation m st.Address (newStationWorld st), toFetch ++ [st.Address]))
    (m, [])

/-- The fetch fan-out: every scheduled address gets its own transport
oracle (`fenvs i` for the i-th scheduled station) and its
`FetchInitialPowerState` result is written back into the map; errors are
discarded, as in the source goroutines. The concurrent execution and the
7-second soft deadline are sequentialized: every fetch runs to
completion here. -/
def runFetches (fenvs : Nat → Env) (m : Manager) (addrs : List String) : Manager :=
  (addrs.enum).foldl
    (fun m p =>
      match lookupStation m p.2 with
      | none => m
      | some w =>
          match FetchInitialPowerState (fenvs p.1) (some w) with
          | (_, some w2) => setStation m p.2 w2
          | (_, none) => m)
    m

/-- Everything `ScanAndFetchStations` consumes from the outside world:
the advertisement stream and terminal error of the scan, and a transport
oracle per scheduled fetch. -/
structure ScanMergeEnv where
  ads : List ScanResultEntry
  scanErr : Option String
  fetchEnvs : Nat → Env

/-- `Manager.ScanAndFetchStations`: fail fast with the already-scanning
error (returning the current snapshot and leaving everything unchanged)
if the flag is set; otherwise set the flag, scan, merge, fan out the
fetches, and clear the flag on every exit path (the source's `defer`). -/
def ScanAndFetchStations (env : ScanMergeEnv) (m : Manager) :
    (List StationInfo × Option String) × Manager :=
  if m.isScanning then
    ((GetStationInfo m, some "scan already in progress"), m)
  else
    let m := { m with isScanning := true }
    match ScanForDuration env.ads env.scanErr with
    | .error e =>
        let m := { m with isScanning := false }
        ((GetStationInfo m, some ("bluetooth scan failed: " ++ e)), m)
    | .ok found =>
        let mf := mergeScan m found
        let m := runFetches env.fetchEnvs mf.1 mf.2
        let m := { m with isScanning := false }
        ((GetStationInfo m, none), m)

/-- The fan-out shared by `PowerOnAllStations` and `PowerOffAllStations`:
nil map entries are skipped; every other station runs the given power
operation under its own transport oracle (`envs i` for the station at
map position `i`); a failure records the station's address. -/
def toggleResults (powerFn : Env → Option BTWorld → Except String Unit × Option BTWorld)
    (envs : Nat → Env) (stations : List (String × Option BTWorld)) :
    List ((String × Option BTWorld) × Option String) :=
  stations.enum.map (fun p =>
    match p.2.2 with
    | none => ((p.2.1, none), none)
    | some w =>
        match powerFn (envs p.1) (some w) with
        | (.ok _, w2) => ((p.2.1, w2), none)
        | (.error _, w2) => ((p.2.1, w2), some w.station.Address))

/-- The `errors` map of the power-all loops: keyed by station address,
so its size is the number of distinct failing addresses. -/
def aggregateErrors (rs : List ((String × Option BTWorld) × Option String)) : List String :=
  (rs.filterMap (fun r => r.2)).dedup

/-- `Manager.PowerOnAllStations`: snapshot the non-nil stations, run
`PowerOn` on each (concurrency sequentialized; the source waits for all
with no deadline), and fail with the aggregate count-only message when
any failed. -/
def PowerOnAllStations (envs : Nat → Env) (m : Manager) : Option String × Manager :=
  let rs := toggleResults PowerOn envs m.stations
  let errs := aggregateErrors rs
  (if errs.length > 0 then
     some ("encountered " ++ toString errs.length ++ " error(s) during PowerOnAllStations")
   else none,
   { m with stations := rs.map (fun r => r.1) })

/-- `Manager.PowerOffAllStations`: as `PowerOnAllStations` with
`PowerOff`. -/
def PowerOffAllStations (envs : Nat → Env) (m : Manager) : Option String × Manager :=
  let rs := toggleResults PowerOff envs m.stations
  let errs := aggregateErrors rs
  (if errs.length > 0 then
     some ("encountered " ++ toString errs.length ++ " error(s) during PowerOffAllStations")
   else none,
   { m with stations := rs.map (fun r => r.1) })

/-! ### Helper notions and lemmas -/

/-- The disconnected baseline of the spec: no connection flag, no
handles, power state Unknown. -/
def disconnectedBaseline (bs : BaseStation) : Prop :=
  bs.isConnected = false ∧ bs.device = none ∧ bs.characteristic = none ∧
    bs.PowerState = PowerStateUnknown

instance (bs : BaseStation) : Decidable (disconnectedBaseline bs) := by
  unfold disconnectedBaseline
  infer_instance

lemma disconnectInternal_baseline (w : BTWorld) :
    disconnectedBaseline (disconnectInternal w).station := by
  simp [disconnectInternal, setPowerStateInternal, disconnectedBaseline]

lemma connectPhase_error_baseline (env : Env) (w : BTWorld) (e : String)
    (h : (connectPhase env w).1 = .error e) :
    disconnectedBaseline (connectPhase env w).2.station := by
  unfold connectPhase at h ⊢
  by_cases hcond : (¬ w.station.isConnected = true ∨ w.station.device = none)
  · rw [if_pos hcond] at h ⊢
    cases hr : env.connects w.nConnect <;>
      simp [hr, setPowerStateInternal, disconnectedBaseline, registryAdd] at h ⊢
  · rw [if_neg hcond] at h
    simp at h

lemma connectPhase_ok_connected (env : Env) (w : BTWorld)
    (h : (connectPhase env w).1 = .ok ()) :
    (connectPhase env w).2.station.isConnected = true ∧
    (connectPhase env w).2.station.device = some () ∧
    (connectPhase env w).2.station.characteristic = w.station.characteristic := by
  unfold connectPhase at h ⊢
  by_cases hcond : (¬ w.station.isConnected = true ∨ w.station.device = none)
  · rw [if_pos hcond] at h ⊢
    cases hr : env.connects w.nConnect <;>
      simp [hr, setPowerStateInternal, registryAdd] at h ⊢
    split <;> simp
  · rw [if_neg hcond] at h ⊢
    push_neg at hcond
    refine ⟨hcond.1, ?_, rfl⟩
    cases hd : w.station.device with
    | none => exact absurd hd hcond.2
    | some u => cases u; rfl

lemma discoveryAttempt_station (env : Env) (w : BTWorld) :
    (discoveryAttempt env w).2.station = w.station := by
  unfold discoveryAttempt
  cases hr : env.services w.nServices <;> simp [hr]
  split
  · rfl
  · cases hc : env.chars w.nChars <;> simp [hc]
    split <;> rfl

lemma discoveryLoop_station (env : Env) :
    ∀ (k i : Nat) (e : String) (w : BTWorld),
      (discoveryLoop env i k e w).2.station = w.station := by
  intro k
  induction k with
  | zero => intro i e w; rfl
  | succ k ih =>
      intro i e w
      unfold discoveryLoop
      cases hda : discoveryAttempt env (if i > 0 then sleep w 500 else w) with
      | mk r w2 =>
          have hs : w2.station = w.station := by
            have := discoveryAttempt_station env (if i > 0 then sleep w 500 else w)
            rw [hda] at this
            simpa [sleep] using (by split at this <;> simpa [sleep] using this)
          cases r with
          | ok u => simpa [hda] using hs
          | error e2 => simp [hda, ih, hs]

lemma cad_error_baseline (env : Env) (w : BTWorld) (e : String)
    (h : (connectAndDiscoverInternal env w).1 = .error e) :
    disconnectedBaseline (connectAndDiscoverInternal env w).2.station := by
  unfold connectAndDiscoverInternal at h ⊢
  by_cases hg : (w.station.isConnected = true ∧ w.station.device.isSome = true ∧
      w.station.characteristic.isSome = true)
  · rw [if_pos hg] at h; simp at h
  · rw [if_neg hg] at h ⊢
    cases hcp : connectPhase env w with
    | mk r w2 =>
        cases r with
        | error e2 =>
            simp only [hcp] at h ⊢
            have := connectPhase_error_baseline env w e2 (by rw [hcp])
            rw [hcp] at this
            exact this
        | ok u =>
            cases u
            simp only [hcp] at h ⊢
            by_cases hch : w2.station.characteristic = none
            · rw [if_pos hch] at h ⊢
              cases hdl : discoveryLoop env 0 3 "" w2 with
              | mk r2 w3 =>
                  cases r2 with
                  | error e3 => simp only [hdl]; exact disconnectInternal_baseline w3
                  | ok u2 => simp [hdl] at h
            · rw [if_neg hch] at h
              simp at h

lemma cad_ok_connected (env : Env) (w : BTWorld)
    (h : (connectAndDiscoverInternal env w).1 = .ok ()) :
    (connectAndDiscoverInternal env w).2.station.isConnected = true ∧
    (connectAndDiscoverInternal env w).2.station.device = some () ∧
    (connectAndDiscoverInternal env w).2.station.characteristic = some () := by
  unfold connectAndDiscoverInternal at h ⊢
  by_cases hg : (w.station.isConnected = true ∧ w.station.device.isSome = true ∧
      w.station.characteristic.isSome = true)
  · rw [if_pos hg] at h ⊢
    obtain ⟨h1, h2, h3⟩ := hg
    refine ⟨h1, ?_, ?_⟩
    · cases hd : w.station.device with
      | none => rw [hd] at h2; simp at h2
      | some u => cases u; rfl
    · cases hc : w.station.characteristic with
      | none => rw [hc] at h3; simp at h3
      | some u => cases u; rfl
  · rw [if_neg hg] at h ⊢
    cases hcp : connectPhase env w with
    | mk r w2 =>
        cases r with
        | error e2 => simp [hcp] at h
        | ok u =>
            cases u
            have hcc := connectPhase_ok_connected env w (by rw [hcp])
            rw [hcp] at hcc
            simp only at hcc
            simp only [hcp] at h ⊢
            by_cases hch : w2.station.characteristic = none
            · rw [if_pos hch] at h ⊢
              cases hdl : discoveryLoop env 0 3 "" w2 with
              | mk r2 w3 =>
                  cases r2 with
                  | error e3 => simp [hdl] at h
                  | ok u2 =>
                      have hst : w3.station = w2.station := by
                        have := discoveryLoop_station env 3 0 "" w2
                        rw [hdl] at this
                        simpa using this
                      simp only [hdl]
                      rw [hst]
                      simp [hcc.1, hcc.2.1]
            · rw [if_neg hch] at h ⊢
              refine ⟨hcc.1, hcc.2.1, ?_⟩
              cases hc : w2.station.characteristic with
              | none => exact absurd hc hch
              | some u2 => cases u2; rfl

lemma readInternal_conn_fields (env : Env) (w : BTWorld) :
    (readPowerStateInternal env w).2.station.isConnected = w.station.isConnected ∧
    (readPowerStateInternal env w).2.station.device = w.station.device ∧
    (readPowerStateInternal env w).2.station.characteristic = w.station.characteristic := by
  unfold readPowerStateInternal
  split
  · exact ⟨rfl, rfl, rfl⟩
  · cases hr : env.reads w.nRead with
    | error e => simp [hr, setPowerStateInternal]
    | ok nb =>
        obtain ⟨n, b⟩ := nb
        simp only [hr]
        split <;> simp [setPowerStateInternal]

lemma readInternal_error_unknown (env : Env) (w : BTWorld) (e : String)
    (hch : w.station.characteristic ≠ none)
    (h : (readPowerStateInternal env w).1 = .error e) :
    (readPowerStateInternal env w).2.station.PowerState = PowerStateUnknown := by
  unfold readPowerStateInternal at h ⊢
  rw [if_neg hch] at h ⊢
  cases hr : env.reads w.nRead with
  | error e2 => simp [hr, setPowerStateInternal]
  | ok nb =>
      obtain ⟨n, b⟩ := nb
      simp only [hr] at h ⊢
      by_cases hn1 : n ≠ 1
      · rw [if_pos hn1]
        simp [setPowerStateInternal]
      · rw [if_neg hn1] at h
        simp at h

lemma readInternal_ok_state (env : Env) (w : BTWorld) (n b : Nat)
    (hch : w.station.characteristic ≠ none)
    (hr : env.reads w.nRead = .ok (n, b)) (hn : n = 1) :
    (readPowerStateInternal env w).1 = .ok () ∧
    (readPowerStateInternal env w).2.station.PowerState =
      (if b = 0 then PowerStateOff else PowerStateOn) ∧
    (readPowerStateInternal env w).2.station.LastStateUpdate = w.clock := by
  subst hn
  unfold readPowerStateInternal
  rw [if_neg hch]
  simp only [hr, ne_eq]
  rw [if_neg (by simp)]
  refine ⟨rfl, ?_, by simp [setPowerStateInternal]⟩
  simp only [setPowerStateInternal]
  by_cases hb : b = 0
  · subst hb
    simp [PowerStateOff]
  · rw [if_neg hb]
    have hbz : ¬ ((b : Int) = PowerStateOff) := by
      simp only [PowerStateOff]
      exact_mod_cast hb
    simp [hbz]

lemma writeByte_station (env : Env) (w : BTWorld) :
    (writeByte env w).2.station = w.station := by
  simp [writeByte]

lemma setPowerAttempt_error_baseline (env : Env) (cm wm : String) :
    ∀ (k : Nat) (w : BTWorld) (e : String),
      (setPowerAttempt env cm wm (k + 1) w).1 = .error e →
      disconnectedBaseline (setPowerAttempt env cm wm (k + 1) w).2.station := by
  intro k
  induction k with
  | zero =>
      intro w e h
      unfold setPowerAttempt at h ⊢
      cases hcad : connectAndDiscoverInternal env w with
      | mk r w2 =>
          cases r with
          | error e2 =>
              simp only [hcad, reduceIte] at h ⊢
              have := cad_error_baseline env w e2 (by rw [hcad])
              rw [hcad] at this
              exact this
          | ok u =>
              cases u
              simp only [hcad] at h ⊢
              cases hw : writeByte env w2 with
              | mk rw w3 =>
                  cases rw with
                  | ok n => simp [hw] at h
                  | error e2 =>
                      simp only [hw, reduceIte] at h ⊢
                      exact disconnectInternal_baseline w3
  | succ k ih =>
      intro w e h
      unfold setPowerAttempt at h ⊢
      cases hcad : connectAndDiscoverInternal env w with
      | mk r w2 =>
          cases r with
          | error e2 =>
              simp only [hcad] at h ⊢
              have hne : ¬ (k + 1 = 0) := by omega
              rw [if_neg hne] at h ⊢
              exact ih _ e h
          | ok u =>
              cases u
              simp only [hcad] at h ⊢
              cases hw : writeByte env w2 with
              | mk rw w3 =>
                  cases rw with
                  | ok n => simp [hw] at h
                  | error e2 =>
                      simp only [hw] at h ⊢
                      have hne : ¬ (k + 1 = 0) := by omega
                      rw [if_neg hne] at h ⊢
                      exact ih _ e h

lemma setPowerAttempt_ok_connected (env : Env) (cm wm : String) :
    ∀ (k : Nat) (w : BTWorld),
      (setPowerAttempt env cm wm (k + 1) w).1 = .ok () →
      (setPowerAttempt env cm wm (k + 1) w).2.station.isConnected = true ∧
      (setPowerAttempt env cm wm (k + 1) w).2.station.device = some () ∧
      (setPowerAttempt env cm wm (k + 1) w).2.station.characteristic = some () := by
  intro k
  induction k with
  | zero =>
      intro w h
      unfold setPowerAttempt at h ⊢
      cases hcad : connectAndDiscoverInternal env w with
      | mk r w2 =>
          cases r with
          | error e2 => simp [hcad] at h
          | ok u =>
              cases u
              simp only [hcad] at h ⊢
              cases hw : writeByte env w2 with
              | mk rw w3 =>
                  cases rw with
                  | error e2 => simp [hw] at h
                  | ok n =>
                      simp only [hw]
                      have hc := cad_ok_connected env w (by rw [hcad])
                      rw [hcad] at hc
                      have hst := writeByte_station env w2
                      rw [hw] at hst
                      simp only at hst hc
                      rw [hst]
                      exact hc
  | succ k ih =>
      intro w h
      unfold setPowerAttempt at h ⊢
      cases hcad : connectAndDiscoverInternal env w with
      | mk r w2 =>
          cases r with
          | error e2 =>
              simp only [hcad] at h ⊢
              have hne : ¬ (k + 1 = 0) := by omega
              rw [if_neg hne] at h ⊢
              exact ih _ h
          | ok u =>
              cases u
              simp only [hcad] at h ⊢
              cases hw : writeByte env w2 with
              | mk rw w3 =>
                  cases rw with
                  | ok n =>
                      simp only [hw] at h ⊢
                      have hc := cad_ok_connected env w (by rw [hcad])
                      rw [hcad] at hc
                      have hst := writeByte_station env w2
                      rw [hw] at hst
                      simp only at hst hc
                      rw [hst]
                      exact hc
                  | error e2 =>
                      simp only [hw] at h ⊢
                      have hne : ¬ (k + 1 = 0) := by omega
                      rw [if_neg hne] at h ⊢
                      exact ih _ h

lemma PowerOn_error_baseline (env : Env) (w : BTWorld) (e : String)
    (h : (PowerOn env (some w)).1 = .error e) :
    ∃ w2, (PowerOn env (some w)).2 = some w2 ∧ disconnectedBaseline w2.station := by
  unfold PowerOn at h ⊢
  cases hsp : setPowerAttempt env "failed to connect/discover before PowerOn: "
      "failed to write Power ON command after 2 retries: " 2 w with
  | mk r w2 =>
      cases r with
      | error e2 =>
          simp only [hsp] at h ⊢
          refine ⟨w2, rfl, ?_⟩
          have := setPowerAttempt_error_baseline env
            "failed to connect/discover before PowerOn: "
            "failed to write Power ON command after 2 retries: " 1 w e2 (by rw [show (1:Nat)+1 = 2 from rfl, hsp])
          rw [show (1:Nat)+1 = 2 from rfl, hsp] at this
          exact this
      | ok u => cases u; simp [hsp] at h

lemma PowerOff_error_baseline (env : Env) (w : BTWorld) (e : String)
    (h : (PowerOff env (some w)).1 = .error e) :
    ∃ w2, (PowerOff env (some w)).2 = some w2 ∧ disconnectedBaseline w2.station := by
  unfold PowerOff at h ⊢
  cases hsp : setPowerAttempt env "failed to connect/discover before PowerOff: "
      "failed to write Power OFF command after 2 retries: " 2 w with
  | mk r w2 =>
      cases r with
      | error e2 =>
          simp only [hsp] at h ⊢
          refine ⟨w2, rfl, ?_⟩
          have := setPowerAttempt_error_baseline env
            "failed to connect/discover before PowerOff: "
            "failed to write Power OFF command after 2 retries: " 1 w e2 (by rw [show (1:Nat)+1 = 2 from rfl, hsp])
          rw [show (1:Nat)+1 = 2 from rfl, hsp] at this
          exact this
      | ok u => cases u; simp [hsp] at h

lemma readInternal_transport_error (env : Env) (w : BTWorld) (e : String)
    (hch : w.station.characteristic ≠ none) (hr : env.reads w.nRead = .error e) :
    (readPowerStateInternal env w).1 =
      .error ("failed to read power characteristic for " ++ w.station.Name ++ ": " ++ e) := by
  unfold readPowerStateInternal
  rw [if_neg hch]
  simp [hr]

lemma readInternal_badcount (env : Env) (w : BTWorld) (n b : Nat)
    (hch : w.station.characteristic ≠ none) (hr : env.reads w.nRead = .ok (n, b)) (hn : n ≠ 1) :
    (readPowerStateInternal env w).1 =
      .error ("unexpected bytes read (" ++ toString n ++ ") for power on " ++ w.station.Name) := by
  unfold readPowerStateInternal
  rw [if_neg hch]
  simp only [hr, ne_eq]
  rw [if_pos hn]

lemma ReadPowerState_connected_eq (env : Env) (w : BTWorld)
    (hc : w.station.isConnected = true) (hd : w.station.device = some ())
    (hch : w.station.characteristic = some ()) :
    ReadPowerState env (some w) =
      ((readPowerStateInternal env w).1, some (readPowerStateInternal env w).2) := by
  cases hri : readPowerStateInternal env w with
  | mk r w2 => simp [ReadPowerState, hc, hd, hch, hri]

/-! ### Concrete fixtures used by counterexamples and witnesses -/

/-- A disconnected just-scanned station. -/
def wBase : BTWorld :=
  { station :=
      { Name := "LHB-A1", Address := "AA:01", PowerState := PowerStateUnknown
        device := none, characteristic := none, isConnected := false, LastStateUpdate := 0 }
    registry := [], clock := 0, sleeps := []
    nConnect := 0, nServices := 0, nChars := 0, nRead := 0, nWrite := 0 }

/-- A connected station with both handles cached. -/
def wConnected : BTWorld :=
  { station :=
      { Name := "LHB-A1", Address := "AA:01", PowerState := PowerStateOn
        device := some (), characteristic := some (), isConnected := true, LastStateUpdate := 3 }
    registry := ["AA:01"], clock := 7, sleeps := []
    nConnect := 0, nServices := 0, nChars := 0, nRead := 0, nWrite := 0 }

/-- A transport where every call succeeds and every read yields byte 1. -/
def envAllOk : Env :=
  { connects := fun _ => .ok (), services := fun _ => .ok 1, chars := fun _ => .ok 1
    reads := fun _ => .ok (1, 1), writes := fun _ => .ok 1 }

/-- As `envAllOk` but every read fails with a transport error. -/
def envReadFail : Env :=
  { envAllOk with reads := fun _ => .error "att read failed" }

/-! ### Claim theorems -/

/-- C10: every public per-device operation handles a nil station pointer:
fetch/read/power-on/power-off return the "station is nil" error, and
disconnect returns with no effect. -/
theorem c10_nil_station_total (env : Env) :
    FetchInitialPowerState env none = (.error "station is nil", none) ∧
    ReadPowerState env none = (.error "station is nil", none) ∧
    PowerOn env none = (.error "station is nil", none) ∧
    PowerOff env none = (.error "station is nil", none) ∧
    DisconnectStation none = none :=
  ⟨rfl, rfl, rfl, rfl, rfl⟩

/-- C8: `ScanForDuration` fails exactly when the discovery call ended
with a transport error and zero stations were accumulated; with at least
one station accumulated the list is returned successfully even if the
scan ended with an error. -/
theorem c8_scan_partial_success (ads : List ScanResultEntry) (scanErr : Option String) :
    ((∃ e, ScanForDuration ads scanErr = .error e) ↔
      (scanAccumulate ads = [] ∧ scanErr.isSome = true)) ∧
    (scanAccumulate ads ≠ [] →
      ScanForDuration ads scanErr = .ok ((scanAccumulate ads).map (fun p => p.2))) := by
  constructor
  · constructor
    · rintro ⟨e, he⟩
      simp only [ScanForDuration] at he
      split at he
      · rename_i hcond
        refine ⟨?_, hcond.2⟩
        have h0 := hcond.1
        rwa [List.length_eq_zero, List.map_eq_nil_iff] at h0
      · simp at he
    · rintro ⟨hacc, hsome⟩
      simp only [ScanForDuration]
      rw [if_pos ⟨by simp [hacc], hsome⟩]
      exact ⟨_, rfl⟩
  · intro hne
    simp only [ScanForDuration]
    rw [if_neg ?_]
    intro hcond
    have h0 := hcond.1
    rw [List.length_eq_zero, List.map_eq_nil_iff] at h0
    exact hne h0

/-- C8 witness: a single valid advertisement is returned even though the
scan terminated with a transport error. -/
theorem c8_scan_partial_success_witness :
    scanAccumulate [⟨"LHB-X", "11:22"⟩] ≠ [] ∧
    ScanForDuration [⟨"LHB-X", "11:22"⟩] (some "radio fault") =
      .ok ((scanAccumulate [⟨"LHB-X", "11:22"⟩]).map (fun p => p.2)) :=
  ⟨by decide, (c8_scan_partial_success [⟨"LHB-X", "11:22"⟩] (some "radio fault")).2 (by decide)⟩

/-- C6: on a connected station with a cached characteristic, a read that
returns one byte never errors and maps byte 0 to Off and any non-zero
byte to On, updating `LastStateUpdate`; a transport error or a byte
count other than 1 sets `PowerState = Unknown` and returns a read
error. -/
theorem c6_read_power_state (env : Env) (w : BTWorld)
    (hc : w.station.isConnected = true) (hd : w.station.device = some ())
    (hch : w.station.characteristic = some ()) :
    (∀ b : Nat, env.reads w.nRead = .ok (1, b) →
      (ReadPowerState env (some w)).1 = .ok () ∧
      ∀ w2, (ReadPowerState env (some w)).2 = some w2 →
        w2.station.PowerState = (if b = 0 then PowerStateOff else PowerStateOn) ∧
        w2.station.LastStateUpdate = w.clock) ∧
    (∀ n b : Nat, env.reads w.nRead = .ok (n, b) → n ≠ 1 →
      (∃ e, (ReadPowerState env (some w)).1 = .error e) ∧
      ∀ w2, (ReadPowerState env (some w)).2 = some w2 →
        w2.station.PowerState = PowerStateUnknown) ∧
    (∀ e, env.reads w.nRead = .error e →
      (∃ e2, (ReadPowerState env (some w)).1 = .error e2) ∧
      ∀ w2, (ReadPowerState env (some w)).2 = some w2 →
        w2.station.PowerState = PowerStateUnknown) := by
  have hne : w.station.characteristic ≠ none := by rw [hch]; simp
  have heq := ReadPowerState_connected_eq env w hc hd hch
  refine ⟨?_, ?_, ?_⟩
  · intro b hr
    have hok := readInternal_ok_state env w 1 b hne hr rfl
    rw [heq]
    refine ⟨hok.1, ?_⟩
    intro w2 hw2
    simp only [Option.some.injEq] at hw2
    rw [← hw2]
    exact ⟨hok.2.1, hok.2.2⟩
  · intro n b hr hn
    have herr := readInternal_badcount env w n b hne hr hn
    rw [heq]
    refine ⟨⟨_, herr⟩, ?_⟩
    intro w2 hw2
    simp only [Option.some.injEq] at hw2
    rw [← hw2]
    exact readInternal_error_unknown env w _ hne herr
  · intro e hr
    have herr := readInternal_transport_error env w e hne hr
    rw [heq]
    refine ⟨⟨_, herr⟩, ?_⟩
    intro w2 hw2
    simp only [Option.some.injEq] at hw2
    rw [← hw2]
    exact readInternal_error_unknown env w _ hne herr

/-- C6 witness: reading byte 0 on a concrete connected station
succeeds with `PowerState = Off` and a fresh `LastStateUpdate`. -/
theorem c6_read_power_state_witness :
    (ReadPowerState { envAllOk with reads := fun _ => .ok (1, 0) } (some wConnected)).1 = .ok () ∧
    ∀ w2, (ReadPowerState { envAllOk with reads := fun _ => .ok (1, 0) } (some wConnected)).2 = some w2 →
      w2.station.PowerState = (if 0 = 0 then PowerStateOff else PowerStateOn) ∧
      w2.station.LastStateUpdate = wConnected.clock :=
  (c6_read_power_state { envAllOk with reads := fun _ => .ok (1, 0) } wConnected rfl rfl rfl).1 0 rfl

lemma filter_idem (l : List String) (p : String → Bool) :
    (l.filter p).filter p = l.filter p := by
  induction l with
  | nil => rfl
  | cons a t ih =>
      by_cases h : p a <;> simp [List.filter_cons, h, ih]

/-- A disconnected station observed later in time: the logical clock has
advanced past its `LastStateUpdate`. -/
def wStale : BTWorld := { wBase with clock := 5 }

/-- C3 counterexample: disconnecting a station that is not connected is
not a field-preserving no-op — `LastStateUpdate` jumps to the current
time (and `PowerState` is re-stamped to Unknown) because
`disconnectInternal` unconditionally calls `setPowerStateInternal`. -/
theorem c3_counterexample :
    wStale.station.isConnected = false ∧ wStale.station.device = none ∧
    wStale.station.LastStateUpdate = 0 ∧
    (DisconnectStation (some wStale)).map (fun w => w.station.LastStateUpdate) = some 5 := by
  decide

/-- C3 (amended): disconnect never errors (the operation has no error
channel); on any station — connected or not — it clears both handles and
`isConnected`, sets `PowerState = Unknown`, stamps `LastStateUpdate`
with the current time, and removes the address from the registry; a
second disconnect changes nothing except re-stamping `LastStateUpdate`,
so disconnect is idempotent up to that timestamp. -/
theorem c3_amended (w : BTWorld) :
    DisconnectStation (some w) = some (disconnectInternal w) ∧
    (disconnectInternal w).station =
      { w.station with
        isConnected := false, device := none, characteristic := none,
        PowerState := PowerStateUnknown, LastStateUpdate := w.clock } ∧
    (disconnectInternal w).registry = w.registry.filter (fun a => a ≠ w.station.Address) ∧
    (disconnectInternal (disconnectInternal w)).station =
      { (disconnectInternal w).station with LastStateUpdate := (disconnectInternal w).clock } ∧
    (disconnectInternal (disconnectInternal w)).registry = (disconnectInternal w).registry := by
  refine ⟨rfl, ?_, ?_, ?_, ?_⟩
  · simp [disconnectInternal, setPowerStateInternal]
  · simp [disconnectInternal, setPowerStateInternal]
  · simp [disconnectInternal, setPowerStateInternal]
  · simp [disconnectInternal, setPowerStateInternal, filter_idem]

/-- C2 counterexample: on a connected station, a failed power read
returns an error while the station is still connected with both handles —
the caller does observe a connected device after a failed operation,
contradicting the disconnected-baseline claim. -/
theorem c2_counterexample :
    (ReadPowerState envReadFail (some wConnected)).1 =
      .error "failed to read power characteristic for LHB-A1: att read failed" ∧
    (ReadPowerState envReadFail (some wConnected)).2.map (fun w => w.station.isConnected) =
      some true ∧
    (ReadPowerState envReadFail (some wConnected)).2.map (fun w => w.station.characteristic) =
      some (some ()) := by
  refine ⟨rfl, rfl, rfl⟩

/-- C2 (amended): a failed connect-and-discover or setPowerState leaves
the device at the disconnected baseline (no flag, no handles, Unknown);
a failed read on a connected device sets `PowerState = Unknown` but
leaves the connection and both handles intact; a failed
fetchInitialPowerState leaves `PowerState = Unknown` and the device
either at the baseline (connect/discover stage failed) or still fully
connected (read stage failed). -/
theorem c2_amended :
    (∀ (env : Env) (w : BTWorld) (e : String),
      (connectAndDiscoverInternal env w).1 = .error e →
      disconnectedBaseline (connectAndDiscoverInternal env w).2.station) ∧
    (∀ (env : Env) (w w2 : BTWorld) (e : String),
      PowerOn env (some w) = (.error e, some w2) → disconnectedBaseline w2.station) ∧
    (∀ (env : Env) (w w2 : BTWorld) (e : String),
      PowerOff env (some w) = (.error e, some w2) → disconnectedBaseline w2.station) ∧
    (∀ (env : Env) (w w2 : BTWorld) (e : String),
      w.station.isConnected = true → w.station.device = some () →
      w.station.characteristic = some () →
      ReadPowerState env (some w) = (.error e, some w2) →
      w2.station.isConnected = true ∧ w2.station.device = some () ∧
      w2.station.characteristic = some () ∧ w2.station.PowerState = PowerStateUnknown) ∧
    (∀ (env : Env) (w w2 : BTWorld) (e : String),
      FetchInitialPowerState env (some w) = (.error e, some w2) →
      w2.station.PowerState = PowerStateUnknown ∧
      (disconnectedBaseline w2.station ∨
        (w2.station.isConnected = true ∧ w2.station.device = some () ∧
         w2.station.characteristic = some ()))) := by
  refine ⟨?_, ?_, ?_, ?_, ?_⟩
  · exact fun env w e h => cad_error_baseline env w e h
  · intro env w w2 e h
    have h1 : (PowerOn env (some w)).1 = .error e := by rw [h]
    obtain ⟨w3, hw3, hb⟩ := PowerOn_error_baseline env w e h1
    rw [h] at hw3
    simp only [Option.some.injEq] at hw3
    rwa [hw3]
  · intro env w w2 e h
    have h1 : (PowerOff env (some w)).1 = .error e := by rw [h]
    obtain ⟨w3, hw3, hb⟩ := PowerOff_error_baseline env w e h1
    rw [h] at hw3
    simp only [Option.some.injEq] at hw3
    rwa [hw3]
  · intro env w w2 e hc hd hch h
    have hne : w.station.characteristic ≠ none := by rw [hch]; simp
    have heq := ReadPowerState_connected_eq env w hc hd hch
    rw [heq] at h
    have hw2 : w2 = (readPowerStateInternal env w).2 := by
      have := congrArg Prod.snd h
      simp only at this
      simp only [Option.some.injEq] at this
      exact this.symm
    have herr : (readPowerStateInternal env w).1 = .error e := congrArg Prod.fst h
    have hcf := readInternal_conn_fields env w
    subst hw2
    refine ⟨by rw [hcf.1, hc], by rw [hcf.2.1, hd], by rw [hcf.2.2, hch], ?_⟩
    exact readInternal_error_unknown env w e hne herr
  · intro env w w2 e h
    unfold FetchInitialPowerState at h
    cases hcad : connectAndDiscoverInternal env w with
    | mk r wc =>
        cases r with
        | error e2 =>
            simp only [hcad] at h
            obtain ⟨he, hw⟩ := Prod.mk.injEq .. ▸ h
            simp only [Option.some.injEq] at hw
            have hb := cad_error_baseline env w e2 (by rw [hcad])
            rw [hcad] at hb
            simp only at hb
            rw [hw] at hb
            exact ⟨hb.2.2.2, Or.inl hb⟩
        | ok u =>
            cases u
            simp only [hcad] at h
            have hcc := cad_ok_connected env w (by rw [hcad])
            rw [hcad] at hcc
            simp only at hcc
            have hne : wc.station.characteristic ≠ none := by rw [hcc.2.2]; simp
            have hw2 : w2 = (readPowerStateInternal env wc).2 := by
              have := congrArg Prod.snd h
              simp only [Option.some.injEq] at this
              exact this.symm
            have herr : (readPowerStateInternal env wc).1 = .error e := congrArg Prod.fst h
            have hcf := readInternal_conn_fields env wc
            subst hw2
            refine ⟨readInternal_error_unknown env wc e hne herr, Or.inr ?_⟩
            refine ⟨by rw [hcf.1, hcc.1], by rw [hcf.2.1, hcc.2.1], by rw [hcf.2.2, hcc.2.2]⟩

/-- C2 amended witness: the concrete failed read of `c2_counterexample`
leaves the station connected with `PowerState = Unknown`, as the amended
claim states. -/
theorem c2_amended_witness :
    ∃ w2, ReadPowerState envReadFail (some wConnected) =
      (.error "failed to read power characteristic for LHB-A1: att read failed", some w2) ∧
      w2.station.isConnected = true ∧ w2.station.device = some () ∧
      w2.station.characteristic = some () ∧ w2.station.PowerState = PowerStateUnknown := by
  refine ⟨(readPowerStateInternal envReadFail wConnected).2, rfl, ?_⟩
  exact (c2_amended.2.2.2.1 envReadFail wConnected
    (readPowerStateInternal envReadFail wConnected).2
    "failed to read power characteristic for LHB-A1: att read failed" rfl rfl rfl rfl)

/-- C1 counterexample: from a connected station, `PowerOn` with a
succeeding write and a failing reconciliation read returns success — but
with `PowerState = Unknown`, not the target On: the code never sets the
power state optimistically to the target, and the failed read resets it. -/
theorem c1_counterexample :
    (PowerOn envReadFail (some wConnected)).1 = .ok () ∧
    (PowerOn envReadFail (some wConnected)).2.map (fun w => w.station.PowerState) =
      some PowerStateUnknown ∧
    PowerStateUnknown ≠ PowerStateOn :=
  ⟨rfl, rfl, by decide⟩

/-- C1 (amended): when the write loop of `PowerOn`/`PowerOff` succeeds,
the call returns success regardless of the outcome of the best-effort
reconciliation read, and its result state is exactly the state after
that read; the in-memory power state is not set to the target before the
read, so when the reconciliation read fails the call still succeeds but
leaves `PowerState = Unknown`. -/
theorem c1_amended (env : Env) (w w1 : BTWorld) :
    (setPowerAttempt env "failed to connect/discover before PowerOn: "
        "failed to write Power ON command after 2 retries: " 2 w = (.ok (), w1) →
      (PowerOn env (some w)).1 = .ok () ∧
      (PowerOn env (some w)).2 = some (readPowerStateInternal env (sleep w1 100)).2 ∧
      (∀ e, (readPowerStateInternal env (sleep w1 100)).1 = .error e →
        (readPowerStateInternal env (sleep w1 100)).2.station.PowerState = PowerStateUnknown)) ∧
    (setPowerAttempt env "failed to connect/discover before PowerOff: "
        "failed to write Power OFF command after 2 retries: " 2 w = (.ok (), w1) →
      (PowerOff env (some w)).1 = .ok () ∧
      (PowerOff env (some w)).2 = some (readPowerStateInternal env (sleep w1 100)).2 ∧
      (∀ e, (readPowerStateInternal env (sleep w1 100)).1 = .error e →
        (readPowerStateInternal env (sleep w1 100)).2.station.PowerState = PowerStateUnknown)) := by
  constructor
  · intro hsp
    have h1 : (setPowerAttempt env "failed to connect/discover before PowerOn: "
        "failed to write Power ON command after 2 retries: " 2 w).1 = .ok () := by rw [hsp]
    have hcc := setPowerAttempt_ok_connected env
      "failed to connect/discover before PowerOn: "
      "failed to write Power ON command after 2 retries: " 1 w
      (by rw [show (1:Nat)+1 = 2 from rfl]; exact h1)
    rw [show (1:Nat)+1 = 2 from rfl, hsp] at hcc
    simp only at hcc
    have hch : (sleep w1 100).station.characteristic ≠ none := by
      show w1.station.characteristic ≠ none
      rw [hcc.2.2]
      simp
    refine ⟨?_, ?_, fun e he => readInternal_error_unknown env (sleep w1 100) e hch he⟩
    · unfold PowerOn
      simp only [hsp]
    · unfold PowerOn
      simp only [hsp]
  · intro hsp
    have h1 : (setPowerAttempt env "failed to connect/discover before PowerOff: "
        "failed to write Power OFF command after 2 retries: " 2 w).1 = .ok () := by rw [hsp]
    have hcc := setPowerAttempt_ok_connected env
      "failed to connect/discover before PowerOff: "
      "failed to write Power OFF command after 2 retries: " 1 w
      (by rw [show (1:Nat)+1 = 2 from rfl]; exact h1)
    rw [show (1:Nat)+1 = 2 from rfl, hsp] at hcc
    simp only at hcc
    have hch : (sleep w1 100).station.characteristic ≠ none := by
      show w1.station.characteristic ≠ none
      rw [hcc.2.2]
      simp
    refine ⟨?_, ?_, fun e he => readInternal_error_unknown env (sleep w1 100) e hch he⟩
    · unfold PowerOff
      simp only [hsp]
    · unfold PowerOff
      simp only [hsp]

/-- C1 amended witness: the concrete run of `c1_counterexample`
instantiates the amended claim: write loop succeeds, the reconciliation
read fails, the call succeeds with `PowerState = Unknown`. -/
theorem c1_amended_witness :
    setPowerAttempt envReadFail "failed to connect/discover before PowerOn: "
        "failed to write Power ON command after 2 retries: " 2 wConnected =
      (.ok (), { wConnected with nWrite := 1 }) ∧
    (PowerOn envReadFail (some wConnected)).1 = .ok () ∧
    (readPowerStateInternal envReadFail
        (sleep { wConnected with nWrite := 1 } 100)).2.station.PowerState = PowerStateUnknown := by
  have hsp : setPowerAttempt envReadFail "failed to connect/discover before PowerOn: "
      "failed to write Power ON command after 2 retries: " 2 wConnected =
      (.ok (), { wConnected with nWrite := 1 }) := rfl
  have h := (c1_amended envReadFail wConnected { wConnected with nWrite := 1 }).1 hsp
  exact ⟨hsp, h.1,
    h.2.2 "failed to read power characteristic for LHB-A1: att read failed" rfl⟩

/-- The spec invariant: `isConnected ⇔ (connectionHandle ≠ null ∧
controlAttributeHandle ≠ null)`. -/
def handlesInv (bs : BaseStation) : Prop :=
  bs.isConnected = true ↔ (bs.device ≠ none ∧ bs.characteristic ≠ none)

instance (bs : BaseStation) : Decidable (handlesInv bs) := by
  unfold handlesInv
  infer_instance

lemma handlesInv_of_baseline (bs : BaseStation) (h : disconnectedBaseline bs) :
    handlesInv bs := by
  unfold handlesInv
  rw [h.1, h.2.1]
  simp

lemma handlesInv_connected (bs : BaseStation) (hc : bs.isConnected = true)
    (hd : bs.device = some ()) (hch : bs.characteristic = some ()) : handlesInv bs := by
  simp [handlesInv, hc, hd, hch]

lemma handlesInv_congr (b1 b2 : BaseStation) (h1 : b2.isConnected = b1.isConnected)
    (h2 : b2.device = b1.device) (h3 : b2.characteristic = b1.characteristic)
    (h : handlesInv b1) : handlesInv b2 := by
  unfold handlesInv at *
  rw [h1, h2, h3]
  exact h

lemma cad_inv (env : Env) (w : BTWorld) :
    handlesInv (connectAndDiscoverInternal env w).2.station := by
  cases hr : (connectAndDiscoverInternal env w).1 with
  | error e => exact handlesInv_of_baseline _ (cad_error_baseline env w e hr)
  | ok u =>
      cases u
      have hcc := cad_ok_connected env w hr
      exact handlesInv_connected _ hcc.1 hcc.2.1 hcc.2.2

/-- C5: every session operation preserves the invariant
`isConnected ⇔ (device handle present ∧ characteristic handle present)`
on the observable post-state. -/
theorem c5_handles_invariant :
    (∀ (env : Env) (w : BTWorld), handlesInv w.station →
      handlesInv (connectAndDiscoverInternal env w).2.station) ∧
    (∀ (env : Env) (w w2 : BTWorld), handlesInv w.station →
      (ReadPowerState env (some w)).2 = some w2 → handlesInv w2.station) ∧
    (∀ (env : Env) (w w2 : BTWorld), handlesInv w.station →
      (FetchInitialPowerState env (some w)).2 = some w2 → handlesInv w2.station) ∧
    (∀ (env : Env) (w w2 : BTWorld), handlesInv w.station →
      (PowerOn env (some w)).2 = some w2 → handlesInv w2.station) ∧
    (∀ (env : Env) (w w2 : BTWorld), handlesInv w.station →
      (PowerOff env (some w)).2 = some w2 → handlesInv w2.station) ∧
    (∀ (w w2 : BTWorld), handlesInv w.station →
      DisconnectStation (some w) = some w2 → handlesInv w2.station) := by
  refine ⟨?_, ?_, ?_, ?_, ?_, ?_⟩
  · intro env w _ 
    exact cad_inv env w
  · intro env w w2 hinv h
    simp only [ReadPowerState] at h
    split at h
    · simp only [Option.some.injEq] at h
      rw [← h]
      exact hinv
    · split at h
      · simp only [Option.some.injEq] at h
        rw [← h]
        exact hinv
      · cases hri : readPowerStateInternal env w with
        | mk r wri =>
            simp only [hri, Option.some.injEq] at h
            have hcf := readInternal_conn_fields env w
            rw [hri] at hcf
            simp only at hcf
            rw [← h]
            exact handlesInv_congr w.station wri.station hcf.1 hcf.2.1 hcf.2.2 hinv
  · intro env w w2 hinv h
    simp only [FetchInitialPowerState] at h
    cases hcad : connectAndDiscoverInternal env w with
    | mk r wc =>
        have hci := cad_inv env w
        rw [hcad] at hci
        simp only at hci
        cases r with
        | error e =>
            simp only [hcad, Option.some.injEq] at h
            rw [← h]
            exact hci
        | ok u =>
            cases u
            simp only [hcad] at h
            cases hri : readPowerStateInternal env wc with
            | mk r2 wri =>
                simp only [hri, Option.some.injEq] at h
                have hcf := readInternal_conn_fields env wc
                rw [hri] at hcf
                simp only at hcf
                rw [← h]
                exact handlesInv_congr wc.station wri.station hcf.1 hcf.2.1 hcf.2.2 hci
  · intro env w w2 hinv h
    simp only [PowerOn] at h
    cases hsp : setPowerAttempt env "failed to connect/discover before PowerOn: "
        "failed to write Power ON command after 2 retries: " 2 w with
    | mk r w1 =>
        cases r with
        | error e =>
            simp only [hsp, Option.some.injEq] at h
            have hb := setPowerAttempt_error_baseline env
              "failed to connect/discover before PowerOn: "
              "failed to write Power ON command after 2 retries: " 1 w e
              (by rw [show (1:Nat)+1 = 2 from rfl, hsp])
            rw [show (1:Nat)+1 = 2 from rfl, hsp] at hb
            simp only at hb
            rw [← h]
            exact handlesInv_of_baseline _ hb
        | ok u =>
            cases u
            have hcc := setPowerAttempt_ok_connected env
              "failed to connect/discover before PowerOn: "
              "failed to write Power ON command after 2 retries: " 1 w
              (by rw [show (1:Nat)+1 = 2 from rfl, hsp])
            rw [show (1:Nat)+1 = 2 from rfl, hsp] at hcc
            simp only at hcc
            simp only [hsp] at h
            cases hri : readPowerStateInternal env (sleep w1 100) with
            | mk r2 wri =>
                simp only [hri, Option.some.injEq] at h
                have hcf := readInternal_conn_fields env (sleep w1 100)
                rw [hri] at hcf
                simp only at hcf
                rw [← h]
                refine handlesInv_congr (sleep w1 100).station wri.station
                  hcf.1 hcf.2.1 hcf.2.2 ?_
                exact handlesInv_connected _ hcc.1 hcc.2.1 hcc.2.2
  · intro env w w2 hinv h
    simp only [PowerOff] at h
    cases hsp : setPowerAttempt env "failed to connect/discover before PowerOff: "
        "failed to write Power OFF command after 2 retries: " 2 w with
    | mk r w1 =>
        cases r with
        | error e =>
            simp only [hsp, Option.some.injEq] at h
            have hb := setPowerAttempt_error_baseline env
              "failed to connect/discover before PowerOff: "
              "failed to write Power OFF command after 2 retries: " 1 w e
              (by rw [show (1:Nat)+1 = 2 from rfl, hsp])
            rw [show (1:Nat)+1 = 2 from rfl, hsp] at hb
            simp only at hb
            rw [← h]
            exact handlesInv_of_baseline _ hb
        | ok u =>
            cases u
            have hcc := setPowerAttempt_ok_connected env
              "failed to connect/discover before PowerOff: "
              "failed to write Power OFF command after 2 retries: " 1 w
              (by rw [show (1:Nat)+1 = 2 from rfl, hsp])
            rw [show (1:Nat)+1 = 2 from rfl, hsp] at hcc
            simp only at hcc
            simp only [hsp] at h
            cases hri : readPowerStateInternal env (sleep w1 100) with
            | mk r2 wri =>
                simp only [hri, Option.some.injEq] at h
                have hcf := readInternal_conn_fields env (sleep w1 100)
                rw [hri] at hcf
                simp only at hcf
                rw [← h]
                refine handlesInv_congr (sleep w1 100).station wri.station
                  hcf.1 hcf.2.1 hcf.2.2 ?_
                exact handlesInv_connected _ hcc.1 hcc.2.1 hcc.2.2
  · intro w w2 hinv h
    simp only [DisconnectStation, Option.some.injEq] at h
    rw [← h]
    exact handlesInv_of_baseline _ (disconnectInternal_baseline w)

/-- C5 witness: on a concrete disconnected station satisfying the
invariant, a full connect-and-discover run preserves it. -/
theorem c5_handles_invariant_witness :
    handlesInv wBase.station ∧
    handlesInv (connectAndDiscoverInternal envAllOk wBase).2.station :=
  ⟨by decide, c5_handles_invariant.1 envAllOk wBase (by decide)⟩

/-- A transport where service discovery fails on the first two attempts
and succeeds on the third; everything else succeeds. -/
def envRetry : Env :=
  { envAllOk with services := fun n => if n < 2 then .error "svc fail" else .ok 1 }

/-- A transport where service discovery always fails. -/
def envNoSvc : Env :=
  { envAllOk with services := fun _ => .error "svc fail" }

/-- C4: with the connect phase succeeding and the characteristic not yet
cached, a discovery sequence failing on attempts 1 and 2 (with the
500 ms pauses before the retries) and succeeding on attempt 3, followed
by a successful one-byte read, makes `FetchInitialPowerState` succeed;
a sequence failing on all 3 attempts makes it fail with the
discovery error and leaves the station at the disconnected, Unknown
baseline. -/
theorem c4_discovery_retry_bound :
    (∀ (env : Env) (w wc wa1 wa2 wa3 : BTWorld) (e1 e2 : String) (b : Nat),
      w.station.characteristic = none →
      connectPhase env w = (.ok (), wc) →
      discoveryAttempt env wc = (.error e1, wa1) →
      discoveryAttempt env (sleep wa1 500) = (.error e2, wa2) →
      discoveryAttempt env (sleep wa2 500) = (.ok (), wa3) →
      env.reads wa3.nRead = .ok (1, b) →
      (FetchInitialPowerState env (some w)).1 = .ok ()) ∧
    (∀ (env : Env) (w wc wa1 wa2 wa3 : BTWorld) (e1 e2 e3 : String),
      w.station.characteristic = none →
      connectPhase env w = (.ok (), wc) →
      discoveryAttempt env wc = (.error e1, wa1) →
      discoveryAttempt env (sleep wa1 500) = (.error e2, wa2) →
      discoveryAttempt env (sleep wa2 500) = (.error e3, wa3) →
      (FetchInitialPowerState env (some w)).1 =
        .error ("discovery failed internal for " ++ wa3.station.Name ++
          " after 3 retries: " ++ e3) ∧
      ∀ w2, (FetchInitialPowerState env (some w)).2 = some w2 →
        disconnectedBaseline w2.station) := by
  have hloop : ∀ (env : Env) (wc wa1 wa2 : BTWorld) (e1 e2 : String)
      (r3 : Except String Unit) (wa3 : BTWorld),
      discoveryAttempt env wc = (.error e1, wa1) →
      discoveryAttempt env (sleep wa1 500) = (.error e2, wa2) →
      discoveryAttempt env (sleep wa2 500) = (r3, wa3) →
      discoveryLoop env 0 3 "" wc =
        (match r3 with | .ok _ => (.ok (), wa3) | .error e3 => (.error e3, wa3)) := by
    intro env wc wa1 wa2 e1 e2 r3 wa3 h1 h2 h3
    show discoveryLoop env 0 (Nat.succ 2) "" wc = _
    unfold discoveryLoop
    rw [if_neg (by omega)]
    dsimp only
    rw [h1]
    show discoveryLoop env 1 (Nat.succ 1) e1 wa1 = _
    unfold discoveryLoop
    rw [if_pos (by omega)]
    dsimp only
    rw [h2]
    show discoveryLoop env 2 (Nat.succ 0) e2 wa2 = _
    unfold discoveryLoop
    rw [if_pos (by omega)]
    dsimp only
    rw [h3]
    cases r3 with
    | ok u => cases u; rfl
    | error e3 => rfl
  have hcadeq : ∀ (env : Env) (w wc : BTWorld),
      w.station.characteristic = none →
      connectPhase env w = (.ok (), wc) →
      connectAndDiscoverInternal env w =
        (match discoveryLoop env 0 3 "" wc with
          | (.error e, w3) =>
              (.error ("discovery failed internal for " ++ (disconnectInternal w3).station.Name ++
                " after 3 retries: " ++ e), disconnectInternal w3)
          | (.ok _, w3) =>
              (.ok (), { w3 with station := { w3.station with characteristic := some () } })) := by
    intro env w wc hchar hcp
    have hg : ¬ (w.station.isConnected = true ∧ w.station.device.isSome = true ∧
        w.station.characteristic.isSome = true) := by
      intro hcon
      rw [hchar] at hcon
      simp at hcon
    have hwc : wc.station.characteristic = none := by
      have := connectPhase_ok_connected env w (by rw [hcp])
      rw [hcp] at this
      simp only at this
      rw [this.2.2, hchar]
    unfold connectAndDiscoverInternal
    rw [if_neg hg, hcp]
    simp only [hwc, reduceIte]
  constructor
  · intro env w wc wa1 wa2 wa3 e1 e2 b hchar hcp h1 h2 h3 hread
    have hdl := hloop env wc wa1 wa2 e1 e2 (.ok ()) wa3 h1 h2 h3
    have hcad := hcadeq env w wc hchar hcp
    rw [hdl] at hcad
    simp only at hcad
    simp only [FetchInitialPowerState, hcad]
    have hro := readInternal_ok_state env
      { wa3 with station := { wa3.station with characteristic := some () } } 1 b
      (by simp) hread rfl
    cases hri : readPowerStateInternal env
        { wa3 with station := { wa3.station with characteristic := some () } } with
    | mk r2 wri =>
        rw [hri] at hro
        simp only at hro
        simp only [hri]
        exact hro.1
  · intro env w wc wa1 wa2 wa3 e1 e2 e3 hchar hcp h1 h2 h3
    have hdl := hloop env wc wa1 wa2 e1 e2 (.error e3) wa3 h1 h2 h3
    have hcad := hcadeq env w wc hchar hcp
    rw [hdl] at hcad
    simp only at hcad
    simp only [FetchInitialPowerState, hcad]
    refine ⟨rfl, ?_⟩
    intro w2 hw2
    simp only [Option.some.injEq] at hw2
    rw [← hw2]
    exact disconnectInternal_baseline wa3

/-- C4 witness: a concrete fail-fail-succeed discovery run: the fetch
succeeds on the third attempt. -/
theorem c4_discovery_retry_bound_witness :
    envRetry.services 0 = .error "svc fail" ∧
    envRetry.services 1 = .error "svc fail" ∧
    envRetry.services 2 = .ok 1 ∧
    (FetchInitialPowerState envRetry (some wBase)).1 = .ok () := by
  refine ⟨rfl, rfl, rfl, ?_⟩
  exact c4_discovery_retry_bound.1 envRetry wBase
    (connectPhase envRetry wBase).2
    (discoveryAttempt envRetry (connectPhase envRetry wBase).2).2
    (discoveryAttempt envRetry
      (sleep (discoveryAttempt envRetry (connectPhase envRetry wBase).2).2 500)).2
    (discoveryAttempt envRetry
      (sleep (discoveryAttempt envRetry
        (sleep (discoveryAttempt envRetry (connectPhase envRetry wBase).2).2 500)).2 500)).2
    "svc fail" "svc fail" 1 rfl rfl rfl rfl rfl rfl

/-- A manager with a scan already in flight. -/
def mBusy : Manager :=
  { stations := [("AA:01", some wConnected)], renamedStations := [], isScanning := true }

/-- C7: a `ScanAndFetchStations` call made while the scanning flag is
set returns the already-scanning error together with the current
snapshot and leaves the manager (in particular the device map and the
flag, which is owned by the in-flight call) completely unchanged; a call
that enters the scan clears the flag on every exit path, including scan
failure. The atomic check-and-set is modelled by the sequential
transition. -/
theorem c7_scan_exclusion (env : ScanMergeEnv) (m : Manager) :
    (m.isScanning = true →
      ScanAndFetchStations env m = ((GetStationInfo m, some "scan already in progress"), m)) ∧
    (m.isScanning = false →
      ((ScanAndFetchStations env m).2).isScanning = false) := by
  constructor
  · intro h
    simp only [ScanAndFetchStations, h, reduceIte]
  · intro h
    simp only [ScanAndFetchStations, h]
    cases hs : ScanForDuration env.ads env.scanErr with
    | error e => simp [hs]
    | ok found => simp [hs]

/-- C7 witness: a concrete busy manager: the second call fails fast with
the snapshot and changes nothing. -/
theorem c7_scan_exclusion_witness :
    mBusy.isScanning = true ∧
    ScanAndFetchStations ⟨[], none, fun _ => envAllOk⟩ mBusy =
      ((GetStationInfo mBusy, some "scan already in progress"), mBusy) :=
  ⟨rfl, (c7_scan_exclusion ⟨[], none, fun _ => envAllOk⟩ mBusy).1 rfl⟩

/-- The addresses of the stations whose power operation fails, read off
directly from the station map and the per-station transport oracles. -/
def failingAddresses
    (powerFn : Env → Option BTWorld → Except String Unit × Option BTWorld)
    (envs : Nat → Env) (stations : List (String × Option BTWorld)) : List String :=
  stations.enum.filterMap (fun p =>
    match p.2.2 with
    | none => none
    | some w =>
        match (powerFn (envs p.1) (some w)).1 with
        | .ok _ => none
        | .error _ => some w.station.Address)

lemma toggle_fails (powerFn : Env → Option BTWorld → Except String Unit × Option BTWorld)
    (envs : Nat → Env) (stations : List (String × Option BTWorld)) :
    (toggleResults powerFn envs stations).filterMap (fun r => r.2) =
      failingAddresses powerFn envs stations := by
  unfold toggleResults failingAddresses
  rw [List.filterMap_map]
  congr 1
  funext p
  obtain ⟨i, addr, st⟩ := p
  cases st with
  | none => rfl
  | some w =>
      cases hf : powerFn (envs i) (some w) with
      | mk r w2 =>
          cases r with
          | ok u => simp [hf]
          | error e => simp [hf]

lemma aggregate_toggle (powerFn : Env → Option BTWorld → Except String Unit × Option BTWorld)
    (envs : Nat → Env) (stations : List (String × Option BTWorld)) :
    aggregateErrors (toggleResults powerFn envs stations) =
      (failingAddresses powerFn envs stations).dedup := by
  unfold aggregateErrors
  rw [toggle_fails]

/-- A transport where every write fails. -/
def envWriteFail : Env :=
  { envAllOk with writes := fun _ => .error "write fail" }

/-- Scenario fixtures: three connected stations at distinct addresses. -/
def wB3 : BTWorld :=
  { wConnected with station := { wConnected.station with Address := "AA:02" } }

/-- Third scenario station. -/
def wC3 : BTWorld :=
  { wConnected with station := { wConnected.station with Address := "AA:03" } }

/-- Scenario manager: three known stations. -/
def m3 : Manager :=
  { stations := [("AA:01", some wConnected), ("AA:02", some wB3), ("AA:03", some wC3)]
    renamedStations := [], isScanning := false }

/-- Scenario oracles: the third station's writes always fail, the others
fully succeed (reads return byte 1). -/
def envs3 : Nat → Env := fun i => if i = 2 then envWriteFail else envAllOk

/-- C9: the power-all operations fail exactly when at least one
station's power operation failed, and the error reports only the count
of (distinct) failing station addresses as "encountered N error(s)
during ...". Scenario: over three stations where one write fails on
both attempts, the aggregate error reports 1 error(s) and the other two
stations end at `PowerState = On`. -/
theorem c9_power_all_aggregate (envs : Nat → Env) (m : Manager) :
    ((PowerOnAllStations envs m).1 ≠ none ↔
      failingAddresses PowerOn envs m.stations ≠ []) ∧
    ((PowerOnAllStations envs m).1 = none ∨
      (PowerOnAllStations envs m).1 = some ("encountered " ++
        toString (failingAddresses PowerOn envs m.stations).dedup.length ++
        " error(s) during PowerOnAllStations")) ∧
    ((PowerOffAllStations envs m).1 ≠ none ↔
      failingAddresses PowerOff envs m.stations ≠ []) ∧
    ((PowerOffAllStations envs m).1 = none ∨
      (PowerOffAllStations envs m).1 = some ("encountered " ++
        toString (failingAddresses PowerOff envs m.stations).dedup.length ++
        " error(s) during PowerOffAllStations")) ∧
    (PowerOnAllStations envs3 m3).1 =
      some "encountered 1 error(s) during PowerOnAllStations" ∧
    (PowerOnAllStations envs3 m3).2.stations.map
        (fun p => p.2.map (fun w => w.station.PowerState)) =
      [some PowerStateOn, some PowerStateOn, some PowerStateUnknown] := by
  have hiff : ∀ (l : List String), (l.dedup.length > 0 ↔ l ≠ []) := by
    intro l
    constructor
    · intro h hnil
      rw [hnil] at h
      simp at h
    · intro h
      exact List.length_pos.mpr (fun hd => h ((List.dedup_eq_nil l).mp hd))
  have hOn : (PowerOnAllStations envs m).1 =
      (if (failingAddresses PowerOn envs m.stations).dedup.length > 0
       then some ("encountered " ++
         toString (failingAddresses PowerOn envs m.stations).dedup.length ++
         " error(s) during PowerOnAllStations")
       else none) := by
    unfold PowerOnAllStations
    dsimp only
    rw [aggregate_toggle]
  have hOff : (PowerOffAllStations envs m).1 =
      (if (failingAddresses PowerOff envs m.stations).dedup.length > 0
       then some ("encountered " ++
         toString (failingAddresses PowerOff envs m.stations).dedup.length ++
         " error(s) during PowerOffAllStations")
       else none) := by
    unfold PowerOffAllStations
    dsimp only
    rw [aggregate_toggle]
  refine ⟨?_, ?_, ?_, ?_, by decide, by decide⟩
  · rw [hOn]
    by_cases hF : (failingAddresses PowerOn envs m.stations).dedup.length > 0
    · rw [if_pos hF]
      constructor
      · intro _
        exact (hiff _).mp hF
      · intro _
        simp
    · rw [if_neg hF]
      constructor
      · intro hno
        exact absurd rfl hno
      · intro hne
        exact absurd ((hiff _).mpr hne) hF
  · rw [hOn]
    by_cases hF : (failingAddresses PowerOn envs m.stations).dedup.length > 0
    · rw [if_pos hF]
      exact Or.inr rfl
    · rw [if_neg hF]
      exact Or.inl rfl
  · rw [hOff]
    by_cases hF : (failingAddresses PowerOff envs m.stations).dedup.length > 0
    · rw [if_pos hF]
      constructor
      · intro _
        exact (hiff _).mp hF
      · intro _
        simp
    · rw [if_neg hF]
      constructor
      · intro hno
        exact absurd rfl hno
      · intro hne
        exact absurd ((hiff _).mpr hne) hF
  · rw [hOff]
    by_cases hF : (failingAddresses PowerOff envs m.stations).dedup.length > 0
    · rw [if_pos hF]
      exact Or.inr rfl
    · rw [if_neg hF]
      exact Or.inl rfl
